import Mathlib

/-!
# Verification of the VirtualBox manager fleet-action orchestrator

Shallow embedding of `src/VBox/Frontends/VirtualBox/src/manager/UIVirtualBoxManager.cpp`:
the enablement evaluator `isActionEnabled`, its per-selection helper predicates, the
batch executor slots (`sltPerformPowerOffMachine`, `sltPerformResetMachine`,
`sltPerformShutdownMachine`, `sltPerformDiscardMachineState`,
`sltPerformPauseOrResumeMachine`, `performStartOrShowVirtualMachines`), the modal
sub-flow slots with their "opened" re-entrancy flags, and the Pause/Resume toggle
appearance logic of `updateActionsAppearance`.

External collaborators (the remote virtualization engine reached through
`vboxGlobal().openSession` / `openExistingSession`, console calls, progress dialogs,
and the `msgCenter()` confirmation dialogs) are modelled as oracles in an `Engine`
record; the observable calls the manager makes against them are recorded as an
`Event` trace, in the order the source issues them.
-/

set_option linter.unusedVariables false

/-- Machine lifecycle states (KMachineState values referenced by the manager source
together with the states listed in the specification's lifecycle state machine). -/
inductive KMachineState
  | PoweredOff
  | Saved
  | Starting
  | Running
  | Paused
  | Stopping
  | Saving
  | Restoring
  | Teleporting
  | TeleportingPausedVM
  | LiveSnapshotting
  | TeleportingIn
  | TeleportingOut
  | Aborted
  | Inaccessible
deriving DecidableEq, Repr

/-- Configuration access level of a machine item; the manager source only
distinguishes `Null` from everything else. -/
inductive ConfigurationAccessLevel
  | Null
  | Full
deriving DecidableEq, Repr

/-- Snapshot of one virtual machine item as the manager sees it
(`UIVirtualMachineItem`). -/
structure UIVirtualMachineItem where
  id : Nat
  name : String
  machineState : KMachineState
  accessible : Bool
  editable : Bool
  canSwitchTo : Bool
  sessionHeadless : Bool
  configurationAccessLevel : ConfigurationAccessLevel
deriving DecidableEq, Repr

namespace UIVirtualMachineItem

/-- Modelled from the spec: `UIVirtualMachineItem.cpp` is not part of the sources;
the spec defines `isStarted(s)` as anything not PoweredOff/Saved/Aborted/Inaccessible. -/
def isItemStarted (p : UIVirtualMachineItem) : Bool :=
  match p.machineState with
  | .PoweredOff | .Saved | .Aborted | .Inaccessible => false
  | _ => true

/-- Modelled from the spec: `isRunning(s)` covers Running and the running
Teleporting variants; the manager source itself skips exactly
Running/Teleporting/LiveSnapshotting as "already resumed". -/
def isItemRunning (p : UIVirtualMachineItem) : Bool :=
  match p.machineState with
  | .Running | .Teleporting | .LiveSnapshotting => true
  | _ => false

/-- Modelled from the spec: `isPaused(s)`; the manager source itself skips exactly
Paused/TeleportingPausedVM as "already paused". -/
def isItemPaused (p : UIVirtualMachineItem) : Bool :=
  match p.machineState with
  | .Paused | .TeleportingPausedVM => true
  | _ => false

/-- Modelled from the spec: `isPoweredOff(s)` classification of the lifecycle state. -/
def isItemPoweredOff (p : UIVirtualMachineItem) : Bool :=
  match p.machineState with
  | .PoweredOff => true
  | _ => false

/-- Modelled from the spec: `isSaved(s)` classification of the lifecycle state. -/
def isItemSaved (p : UIVirtualMachineItem) : Bool :=
  match p.machineState with
  | .Saved => true
  | _ => false

/-- Modelled from the spec: `editable` is a boolean field of the machine record
("false if the state forbids configuration changes"). -/
def isItemEditable (p : UIVirtualMachineItem) : Bool :=
  p.editable

/-- Modelled from the spec: a started item whose running instance is headless. -/
def isItemRunningHeadless (p : UIVirtualMachineItem) : Bool :=
  isItemRunning p && p.sessionHeadless

end UIVirtualMachineItem

open UIVirtualMachineItem

/-- Action indices handled by `UIVirtualBoxManager::isActionEnabled`. -/
inductive ActionIndex
  | Application_S_Preferences
  | File_S_ExportAppliance
  | File_S_ImportAppliance
  | Welcome_S_Add
  | Group_S_Rename
  | Group_S_Remove
  | Group_S_Sort
  | Machine_S_Settings
  | Machine_S_Clone
  | Machine_S_Move
  | Machine_S_ExportToOCI
  | Machine_S_Remove
  | Machine_S_AddGroup
  | Group_M_StartOrShow
  | Group_M_StartOrShow_S_StartNormal
  | Group_M_StartOrShow_S_StartHeadless
  | Group_M_StartOrShow_S_StartDetachable
  | Machine_M_StartOrShow
  | Machine_M_StartOrShow_S_StartNormal
  | Machine_M_StartOrShow_S_StartHeadless
  | Machine_M_StartOrShow_S_StartDetachable
  | Group_S_Discard
  | Machine_S_Discard
  | Group_S_ShowLogDialog
  | Machine_S_ShowLogDialog
  | Group_T_Pause
  | Machine_T_Pause
  | Group_S_Reset
  | Machine_S_Reset
  | Group_S_Refresh
  | Machine_S_Refresh
  | Group_S_ShowInFileManager
  | Machine_S_ShowInFileManager
  | Machine_S_SortParent
  | Group_S_CreateShortcut
  | Machine_S_CreateShortcut
  | Group_M_Close
  | Machine_M_Close
  | Group_M_Close_S_Detach
  | Machine_M_Close_S_Detach
  | Group_M_Close_S_SaveState
  | Machine_M_Close_S_SaveState
  | Group_M_Close_S_Shutdown
  | Machine_M_Close_S_Shutdown
  | Group_M_Close_S_PowerOff
  | Machine_M_Close_S_PowerOff
deriving DecidableEq, Repr

/-- Machine tool panes the manager widget can show; `isActionEnabled` only
tests against `Snapshots`. -/
inductive UIToolType
  | Welcome
  | Details
  | Snapshots
  | Logs
  | Media
  | Network
  | Cloud
deriving DecidableEq, Repr

/-- The dynamic "opened" re-entrancy properties set on action objects by the
modal sub-flow slots. -/
structure OpenedFlags where
  preferences : Bool
  exportAppliance : Bool
  importAppliance : Bool
  welcomeAdd : Bool
  machineSettings : Bool
  exportToOCI : Bool
deriving DecidableEq, Repr

/-- Manager-side state consulted by `isActionEnabled` besides the selection:
the "opened" flags, group-saving progress, selection shape flags and the
current machine tool pane. -/
structure ManagerEnv where
  opened : OpenedFlags
  groupSavingInProgress : Bool
  allItemsOfOneGroupSelected : Bool
  singleGroupSelected : Bool
  currentMachineTool : UIToolType
  currentStateItemSelected : Bool
deriving DecidableEq, Repr

/-- Oracle for the remote virtualization engine and the message-center
confirmation dialogs: per machine id, whether session/console acquisition
succeeds, what the live console reports, and the user's confirmation replies. -/
structure Engine where
  openExistingSessionOk : Nat → Bool
  openSessionOk : Nat → Bool
  consoleOk : Nat → Bool
  guestEnteredACPIMode : Nat → Bool
  pauseOk : Nat → Bool
  resumeOk : Nat → Bool
  powerDownOk : Nat → Bool
  powerOffProgressOk : Nat → Bool
  powerOffResultCode : Nat → Int
  powerButtonOk : Nat → Bool
  discardOk : Nat → Bool
  confirmStartMultipleMachines : Bool
  confirmResetMachine : Bool
  confirmACPIShutdownMachine : Bool
  confirmPowerOffMachine : Bool
  confirmDiscardSavedState : Bool

/-- Which confirmation dialog the executor requested from the message center. -/
inductive ConfirmKind
  | startMultipleMachines
  | resetMachine
  | acpiShutdown
  | powerOffMachine
  | discardSavedState
deriving DecidableEq, Repr

/-- Remote mutating calls the executor issues on a session's console or machine. -/
inductive RemoteOp
  | pauseOp
  | resumeOp
  | resetOp
  | powerDown
  | powerButton
  | discardState
deriving DecidableEq, Repr

/-- Observable calls the manager makes against its collaborators, in program order. -/
inductive Event
  | confirm (kind : ConfirmKind) (names : String)
  | openExistingSession (machineId : Nat)
  | openSession (machineId : Nat)
  | remoteCall (op : RemoteOp) (machineId : Nat)
  | reportError (op : RemoteOp) (machineId : Nat)
  | unlockMachine (machineId : Nat)
  | launchMachine (machineId : Nat)
deriving DecidableEq, Repr

namespace Event

/-- Is this event a confirmation request to the message center? -/
def isConfirm : Event → Bool
  | .confirm _ _ => true
  | _ => false

/-- Is this event a session acquisition (exclusive or existing)? -/
def isSessionAcquire : Event → Bool
  | .openExistingSession _ => true
  | .openSession _ => true
  | _ => false

/-- Is this event a machine launch? -/
def isLaunch : Event → Bool
  | .launchMachine _ => true
  | _ => false

end Event

/-! ## Selection helper predicates (`UIVirtualBoxManager` statics) -/

/-- Source `UIVirtualBoxManager::isItemsPoweredOff`: every item of the list is powered off. -/
def isItemsPoweredOff (items : List UIVirtualMachineItem) : Bool :=
  items.all isItemPoweredOff

/-- Source `UIVirtualBoxManager::isAtLeastOneItemAccessible`. -/
def isAtLeastOneItemAccessible (items : List UIVirtualMachineItem) : Bool :=
  items.any (fun p => p.accessible)

/-- Source `UIVirtualBoxManager::isAtLeastOneItemInaccessible`. -/
def isAtLeastOneItemInaccessible (items : List UIVirtualMachineItem) : Bool :=
  items.any (fun p => !p.accessible)

/-- Source `UIVirtualBoxManager::isAtLeastOneItemRemovable`. -/
def isAtLeastOneItemRemovable (items : List UIVirtualMachineItem) : Bool :=
  items.any (fun p => !p.accessible || isItemEditable p)

/-- Source `UIVirtualBoxManager::isAtLeastOneItemCanBeStarted`. -/
def isAtLeastOneItemCanBeStarted (items : List UIVirtualMachineItem) : Bool :=
  items.any (fun p => isItemPoweredOff p && isItemEditable p)

/-- Source `UIVirtualBoxManager::isAtLeastOneItemCanBeShown`. -/
def isAtLeastOneItemCanBeShown (items : List UIVirtualMachineItem) : Bool :=
  items.any (fun p => isItemStarted p && (p.canSwitchTo || isItemRunningHeadless p))

/-- Source `UIVirtualBoxManager::isAtLeastOneItemCanBeStartedOrShown`. -/
def isAtLeastOneItemCanBeStartedOrShown (items : List UIVirtualMachineItem) : Bool :=
  items.any (fun p =>
    (isItemPoweredOff p && isItemEditable p) ||
    (isItemStarted p && (p.canSwitchTo || isItemRunningHeadless p)))

/-- Source `UIVirtualBoxManager::isAtLeastOneItemDiscardable`. -/
def isAtLeastOneItemDiscardable (items : List UIVirtualMachineItem) : Bool :=
  items.any (fun p => isItemSaved p && isItemEditable p)

/-- Source `UIVirtualBoxManager::isAtLeastOneItemStarted`. -/
def isAtLeastOneItemStarted (items : List UIVirtualMachineItem) : Bool :=
  items.any isItemStarted

/-- Source `UIVirtualBoxManager::isAtLeastOneItemRunning`. -/
def isAtLeastOneItemRunning (items : List UIVirtualMachineItem) : Bool :=
  items.any isItemRunning

/-- Source `UIVirtualBoxManager::isAtLeastOneItemSupportsShortcuts` (non-Mac build:
only accessibility is checked; the `VBOX_WS_MAC` settings-file check is compiled out). -/
def isAtLeastOneItemSupportsShortcuts (items : List UIVirtualMachineItem) : Bool :=
  items.any (fun p => p.accessible)

/-- Source `UIVirtualBoxManager::isAtLeastOneItemAbleToShutdown`, with the trace of
session calls the probe makes: skip non-running items; open an existing session
(skipping on failure); fetch the console (unlocking and skipping on failure);
read `GetGuestEnteredACPIMode` from the live console; unlock; stop at the first
item whose guest entered ACPI mode. Returns the boolean result together with
the events issued. -/
def isAtLeastOneItemAbleToShutdownAux (eng : Engine) :
    List UIVirtualMachineItem → Bool × List Event
  | [] => (false, [])
  | p :: rest =>
    if !isItemRunning p then
      isAtLeastOneItemAbleToShutdownAux eng rest
    else if !eng.openExistingSessionOk p.id then
      let r := isAtLeastOneItemAbleToShutdownAux eng rest
      (r.1, Event.openExistingSession p.id :: r.2)
    else if !eng.consoleOk p.id then
      let r := isAtLeastOneItemAbleToShutdownAux eng rest
      (r.1, Event.openExistingSession p.id :: Event.unlockMachine p.id :: r.2)
    else if eng.guestEnteredACPIMode p.id then
      (true, [Event.openExistingSession p.id, Event.unlockMachine p.id])
    else
      let r := isAtLeastOneItemAbleToShutdownAux eng rest
      (r.1, Event.openExistingSession p.id :: Event.unlockMachine p.id :: r.2)

/-- Boolean result of `UIVirtualBoxManager::isAtLeastOneItemAbleToShutdown`. -/
def isAtLeastOneItemAbleToShutdown (eng : Engine) (items : List UIVirtualMachineItem) : Bool :=
  (isAtLeastOneItemAbleToShutdownAux eng items).1

/-! ## The enablement evaluator `UIVirtualBoxManager::isActionEnabled` -/

/-- Source `UIVirtualBoxManager::isActionEnabled`: global actions are gated only by
their "opened" re-entrancy flag; every other action is disabled on an empty
selection and otherwise follows the per-action rule of the source's switch.
The source's recursive calls for the Close sub-actions resolve to
`isAtLeastOneItemStarted` (the `Machine_M_Close` case) and are written so here. -/
def isActionEnabled (env : ManagerEnv) (eng : Engine) (a : ActionIndex)
    (items : List UIVirtualMachineItem) : Bool :=
  match a with
  | .Application_S_Preferences => !env.opened.preferences
  | .File_S_ExportAppliance => !env.opened.exportAppliance
  | .File_S_ImportAppliance => !env.opened.importAppliance
  | .Welcome_S_Add => !env.opened.welcomeAdd
  | _ =>
    match items with
    | [] => false
    | pItem :: _ =>
      match a with
      | .Group_S_Rename | .Group_S_Remove =>
        !env.groupSavingInProgress && isItemsPoweredOff items
      | .Group_S_Sort =>
        !env.groupSavingInProgress && env.singleGroupSelected
      | .Machine_S_Settings =>
        !env.opened.machineSettings &&
        !env.groupSavingInProgress &&
        items.length == 1 &&
        !(pItem.configurationAccessLevel == ConfigurationAccessLevel.Null) &&
        (!(env.currentMachineTool == UIToolType.Snapshots) ||
          env.currentStateItemSelected)
      | .Machine_S_Clone | .Machine_S_Move =>
        !env.groupSavingInProgress &&
        items.length == 1 &&
        isItemEditable pItem
      | .Machine_S_ExportToOCI =>
        !env.opened.exportToOCI &&
        items.length == 1
      | .Machine_S_Remove =>
        !env.groupSavingInProgress &&
        isAtLeastOneItemRemovable items
      | .Machine_S_AddGroup =>
        !env.groupSavingInProgress &&
        !env.allItemsOfOneGroupSelected &&
        isItemsPoweredOff items
      | .Group_M_StartOrShow
      | .Group_M_StartOrShow_S_StartNormal
      | .Group_M_StartOrShow_S_StartHeadless
      | .Group_M_StartOrShow_S_StartDetachable
      | .Machine_M_StartOrShow
      | .Machine_M_StartOrShow_S_StartNormal
      | .Machine_M_StartOrShow_S_StartHeadless
      | .Machine_M_StartOrShow_S_StartDetachable =>
        !env.groupSavingInProgress &&
        isAtLeastOneItemCanBeStartedOrShown items &&
        (!(env.currentMachineTool == UIToolType.Snapshots) ||
          env.currentStateItemSelected)
      | .Group_S_Discard | .Machine_S_Discard =>
        !env.groupSavingInProgress &&
        isAtLeastOneItemDiscardable items &&
        (!(env.currentMachineTool == UIToolType.Snapshots) ||
          env.currentStateItemSelected)
      | .Group_S_ShowLogDialog | .Machine_S_ShowLogDialog =>
        isAtLeastOneItemAccessible items
      | .Group_T_Pause | .Machine_T_Pause =>
        isAtLeastOneItemStarted items
      | .Group_S_Reset | .Machine_S_Reset =>
        isAtLeastOneItemRunning items
      | .Group_S_Refresh | .Machine_S_Refresh =>
        isAtLeastOneItemInaccessible items
      | .Group_S_ShowInFileManager | .Machine_S_ShowInFileManager =>
        isAtLeastOneItemAccessible items
      | .Machine_S_SortParent =>
        !env.groupSavingInProgress
      | .Group_S_CreateShortcut | .Machine_S_CreateShortcut =>
        isAtLeastOneItemSupportsShortcuts items
      | .Group_M_Close | .Machine_M_Close =>
        isAtLeastOneItemStarted items
      | .Group_M_Close_S_Detach | .Machine_M_Close_S_Detach =>
        isAtLeastOneItemStarted items
      | .Group_M_Close_S_SaveState | .Machine_M_Close_S_SaveState =>
        isAtLeastOneItemStarted items
      | .Group_M_Close_S_Shutdown | .Machine_M_Close_S_Shutdown =>
        isAtLeastOneItemStarted items &&
        isAtLeastOneItemAbleToShutdown eng items
      | .Group_M_Close_S_PowerOff | .Machine_M_Close_S_PowerOff =>
        isAtLeastOneItemStarted items
      | _ => false

/-! ## Batch executor slots -/

/-- Joined display names (`machineNames.join(", ")`). -/
def joinedNames (items : List UIVirtualMachineItem) : String :=
  String.intercalate ", " (items.map (fun p => p.name))

/-- Per-item loop of `sltPerformPowerOffMachine`: open an existing session
(a null session returns from the whole slot, aborting the remaining items),
call `PowerDown`; on console failure report the error; on console success the
progress dialog runs and a bad progress result is reported; always unlock. -/
def powerOffLoop (eng : Engine) : List UIVirtualMachineItem → List Event
  | [] => []
  | p :: rest =>
    if !eng.openExistingSessionOk p.id then
      [Event.openExistingSession p.id]
    else
      Event.openExistingSession p.id ::
      Event.remoteCall RemoteOp.powerDown p.id ::
      ((if eng.powerDownOk p.id then
          (if !eng.powerOffProgressOk p.id || !(eng.powerOffResultCode p.id == 0) then
            [Event.reportError RemoteOp.powerDown p.id]
          else [])
        else
          [Event.reportError RemoteOp.powerDown p.id]) ++
       Event.unlockMachine p.id :: powerOffLoop eng rest)

/-- Source `UIVirtualBoxManager::sltPerformPowerOffMachine`: filter the selection by the
per-item PowerOff enablement, always confirm (regardless of the filtered size),
return on decline, then run the per-item loop. -/
def sltPerformPowerOffMachine (env : ManagerEnv) (eng : Engine)
    (items : List UIVirtualMachineItem) : List Event :=
  let itemsToPowerOff :=
    items.filter (fun p => isActionEnabled env eng ActionIndex.Machine_M_Close_S_PowerOff [p])
  let names := joinedNames itemsToPowerOff
  if !eng.confirmPowerOffMachine then
    [Event.confirm ConfirmKind.powerOffMachine names]
  else
    Event.confirm ConfirmKind.powerOffMachine names :: powerOffLoop eng itemsToPowerOff

/-- Per-item loop of `sltPerformResetMachine`: open an existing session (null
session returns from the slot), `Reset` the console (no error check in the
source), unlock. -/
def resetLoop (eng : Engine) : List UIVirtualMachineItem → List Event
  | [] => []
  | p :: rest =>
    if !eng.openExistingSessionOk p.id then
      [Event.openExistingSession p.id]
    else
      Event.openExistingSession p.id ::
      Event.remoteCall RemoteOp.resetOp p.id ::
      Event.unlockMachine p.id ::
      resetLoop eng rest

/-- Source `UIVirtualBoxManager::sltPerformResetMachine`: filter by the per-item Reset
enablement, always confirm, return on decline, then run the per-item loop. -/
def sltPerformResetMachine (env : ManagerEnv) (eng : Engine)
    (items : List UIVirtualMachineItem) : List Event :=
  let itemsToReset :=
    items.filter (fun p => isActionEnabled env eng ActionIndex.Group_S_Reset [p])
  let names := joinedNames itemsToReset
  if !eng.confirmResetMachine then
    [Event.confirm ConfirmKind.resetMachine names]
  else
    Event.confirm ConfirmKind.resetMachine names :: resetLoop eng itemsToReset

/-- Per-item loop of `sltPerformShutdownMachine`: open an existing session (null
session returns from the slot), press the ACPI `PowerButton`, report a console
failure, unlock. -/
def shutdownLoop (eng : Engine) : List UIVirtualMachineItem → List Event
  | [] => []
  | p :: rest =>
    if !eng.openExistingSessionOk p.id then
      [Event.openExistingSession p.id]
    else
      Event.openExistingSession p.id ::
      Event.remoteCall RemoteOp.powerButton p.id ::
      ((if eng.powerButtonOk p.id then [] else [Event.reportError RemoteOp.powerButton p.id]) ++
       Event.unlockMachine p.id :: shutdownLoop eng rest)

/-- Source `UIVirtualBoxManager::sltPerformShutdownMachine`: filter by the per-item
Shutdown enablement (which itself probes ACPI readiness through short-lived
sessions — see `isAtLeastOneItemAbleToShutdownAux`), always confirm, return on
decline, then run the per-item loop. The trace records the executor's own
collaborator calls; the enablement probe's calls are the evaluator's and are
exposed by `isAtLeastOneItemAbleToShutdownAux`. -/
def sltPerformShutdownMachine (env : ManagerEnv) (eng : Engine)
    (items : List UIVirtualMachineItem) : List Event :=
  let itemsToShutdown :=
    items.filter (fun p => isActionEnabled env eng ActionIndex.Machine_M_Close_S_Shutdown [p])
  let names := joinedNames itemsToShutdown
  if !eng.confirmACPIShutdownMachine then
    [Event.confirm ConfirmKind.acpiShutdown names]
  else
    Event.confirm ConfirmKind.acpiShutdown names :: shutdownLoop eng itemsToShutdown

/-- Per-item loop of `sltPerformDiscardMachineState`: open a write session (null
session returns from the slot), `DiscardSavedState(true)`, report a machine
failure, unlock. -/
def discardLoop (eng : Engine) : List UIVirtualMachineItem → List Event
  | [] => []
  | p :: rest =>
    if !eng.openSessionOk p.id then
      [Event.openSession p.id]
    else
      Event.openSession p.id ::
      Event.remoteCall RemoteOp.discardState p.id ::
      ((if eng.discardOk p.id then [] else [Event.reportError RemoteOp.discardState p.id]) ++
       Event.unlockMachine p.id :: discardLoop eng rest)

/-- Source `UIVirtualBoxManager::sltPerformDiscardMachineState`: filter by the per-item
Discard enablement, always confirm, return on decline, then run the per-item loop. -/
def sltPerformDiscardMachineState (env : ManagerEnv) (eng : Engine)
    (items : List UIVirtualMachineItem) : List Event :=
  let itemsToDiscard :=
    items.filter (fun p => isActionEnabled env eng ActionIndex.Group_S_Discard [p])
  let names := joinedNames itemsToDiscard
  if !eng.confirmDiscardSavedState then
    [Event.confirm ConfirmKind.discardSavedState names]
  else
    Event.confirm ConfirmKind.discardSavedState names :: discardLoop eng itemsToDiscard

/-- Per-item loop of `sltPerformPauseOrResumeMachine`: skip items that are not
per-item Pause-enabled, skip already-paused items on a pause batch and
already-resumed items on a resume batch (exactly the source's state lists),
open an existing session (a null session returns from the whole slot),
`Pause`/`Resume` the console, report a console failure, unlock. -/
def pauseOrResumeLoop (env : ManagerEnv) (eng : Engine) (fPause : Bool) :
    List UIVirtualMachineItem → List Event
  | [] => []
  | p :: rest =>
    if !isActionEnabled env eng ActionIndex.Group_T_Pause [p] then
      pauseOrResumeLoop env eng fPause rest
    else if fPause &&
        (p.machineState == KMachineState.Paused ||
         p.machineState == KMachineState.TeleportingPausedVM) then
      pauseOrResumeLoop env eng fPause rest
    else if !fPause &&
        (p.machineState == KMachineState.Running ||
         p.machineState == KMachineState.Teleporting ||
         p.machineState == KMachineState.LiveSnapshotting) then
      pauseOrResumeLoop env eng fPause rest
    else if !eng.openExistingSessionOk p.id then
      [Event.openExistingSession p.id]
    else
      Event.openExistingSession p.id ::
      Event.remoteCall (if fPause then RemoteOp.pauseOp else RemoteOp.resumeOp) p.id ::
      ((if (if fPause then eng.pauseOk p.id else eng.resumeOk p.id) then []
        else [Event.reportError (if fPause then RemoteOp.pauseOp else RemoteOp.resumeOp) p.id]) ++
       Event.unlockMachine p.id :: pauseOrResumeLoop env eng fPause rest)

/-- Source `UIVirtualBoxManager::sltPerformPauseOrResumeMachine`. -/
def sltPerformPauseOrResumeMachine (env : ManagerEnv) (eng : Engine) (fPause : Bool)
    (items : List UIVirtualMachineItem) : List Event :=
  pauseOrResumeLoop env eng fPause items

/-- Source `UIVirtualBoxManager::performStartOrShowVirtualMachines`: do nothing while
group saving is in progress; compose the startable sub-list by the per-item
`isAtLeastOneItemCanBeStarted` check; the start confirmation is requested only
when more than one item is startable; then every item that can be shown, or can
be started when the start was confirmed, is launched. No session is opened by
this slot. -/
def performStartOrShowVirtualMachines (env : ManagerEnv) (eng : Engine)
    (items : List UIVirtualMachineItem) : List Event :=
  if env.groupSavingInProgress then []
  else
    let startableItems := items.filter (fun p => isAtLeastOneItemCanBeStarted [p])
    let names := joinedNames startableItems
    let queried := decide (startableItems.length > 1)
    let fStartConfirmed := if queried then eng.confirmStartMultipleMachines else true
    let launches := items.filterMap (fun p =>
      if isAtLeastOneItemCanBeShown [p] ||
         (isAtLeastOneItemCanBeStarted [p] && fStartConfirmed) then
        some (Event.launchMachine p.id)
      else none)
    (if queried then [Event.confirm ConfirmKind.startMultipleMachines names] else []) ++
    launches

/-! ## Modal sub-flow slots and their "opened" re-entrancy flags

Each slot sets its action's "opened" property, runs the modal sub-flow while
the property is set, and clears the property on return (every path of the
source passes through the clearing block). Each is modelled as a function from
the manager state to the pair (state while the sub-flow is open, state on
return). -/

/-- Source `UIVirtualBoxManager::sltOpenImportApplianceWizard`. -/
def sltOpenImportApplianceWizard (env : ManagerEnv) : ManagerEnv × ManagerEnv :=
  let envDuring := { env with opened := { env.opened with importAppliance := true } }
  (envDuring, { envDuring with opened := { envDuring.opened with importAppliance := false } })

/-- Source `UIVirtualBoxManager::sltOpenExportApplianceWizard` (locks both the
File/ExportAppliance and the Machine/ExportToOCI actions). -/
def sltOpenExportApplianceWizard (env : ManagerEnv) : ManagerEnv × ManagerEnv :=
  let envDuring :=
    { env with opened := { env.opened with exportAppliance := true, exportToOCI := true } }
  (envDuring,
   { envDuring with opened :=
      { envDuring.opened with exportAppliance := false, exportToOCI := false } })

/-- Source `UIVirtualBoxManager::sltOpenPreferencesDialog`. -/
def sltOpenPreferencesDialog (env : ManagerEnv) : ManagerEnv × ManagerEnv :=
  let envDuring := { env with opened := { env.opened with preferences := true } }
  (envDuring, { envDuring with opened := { envDuring.opened with preferences := false } })

/-- Source `UIVirtualBoxManager::sltOpenAddMachineDialog` (the property is cleared right
after the file dialog, before any of the early returns that follow). -/
def sltOpenAddMachineDialog (env : ManagerEnv) : ManagerEnv × ManagerEnv :=
  let envDuring := { env with opened := { env.opened with welcomeAdd := true } }
  (envDuring, { envDuring with opened := { envDuring.opened with welcomeAdd := false } })

/-- Source `UIVirtualBoxManager::sltOpenMachineSettingsDialog` (both the URL branch and
the dialog branch fall through to the clearing block). -/
def sltOpenMachineSettingsDialog (env : ManagerEnv) : ManagerEnv × ManagerEnv :=
  let envDuring := { env with opened := { env.opened with machineSettings := true } }
  (envDuring, { envDuring with opened := { envDuring.opened with machineSettings := false } })

/-! ## Pause/Resume toggle appearance (`updateActionsAppearance`) -/

/-- The first started item of the selection, in selection order
(the source's foreach-with-break). -/
def firstStartedItem (items : List UIVirtualMachineItem) : Option UIVirtualMachineItem :=
  items.find? isItemStarted

/-- Checked state of the Pause/Resume toggle:
`setChecked(pFirstStartedAction && isItemPaused(pFirstStartedAction))`. -/
def pauseToggleChecked (items : List UIVirtualMachineItem) : Bool :=
  match firstStartedItem items with
  | some p => isItemPaused p
  | none => false

/-! ## Concrete fixtures for evaluation -/

/-- Quiescent manager state: nothing opened, no group saving, Details tool pane. -/
def envDefault : ManagerEnv :=
  { opened :=
      { preferences := false, exportAppliance := false, importAppliance := false
        welcomeAdd := false, machineSettings := false, exportToOCI := false }
    groupSavingInProgress := false
    allItemsOfOneGroupSelected := false
    singleGroupSelected := false
    currentMachineTool := UIToolType.Details
    currentStateItemSelected := true }

/-- Manager state with a group-saving operation in progress. -/
def envSaving : ManagerEnv :=
  { envDefault with groupSavingInProgress := true }

/-- Engine oracle on which every remote call succeeds and every confirmation
is accepted. -/
def engTrue : Engine :=
  { openExistingSessionOk := fun _ => true
    openSessionOk := fun _ => true
    consoleOk := fun _ => true
    guestEnteredACPIMode := fun _ => true
    pauseOk := fun _ => true
    resumeOk := fun _ => true
    powerDownOk := fun _ => true
    powerOffProgressOk := fun _ => true
    powerOffResultCode := fun _ => 0
    powerButtonOk := fun _ => true
    discardOk := fun _ => true
    confirmStartMultipleMachines := true
    confirmResetMachine := true
    confirmACPIShutdownMachine := true
    confirmPowerOffMachine := true
    confirmDiscardSavedState := true }

/-- Engine oracle on which no guest has entered ACPI mode. -/
def engNoAcpi : Engine :=
  { engTrue with guestEnteredACPIMode := fun _ => false }

/-- Engine oracle on which every confirmation dialog is declined. -/
def engDecline : Engine :=
  { engTrue with
      confirmStartMultipleMachines := false
      confirmResetMachine := false
      confirmACPIShutdownMachine := false
      confirmPowerOffMachine := false
      confirmDiscardSavedState := false }

/-- Engine oracle on which machine 1's power-down reports a console failure
while every other call succeeds. -/
def engFailPowerDown1 : Engine :=
  { engTrue with powerDownOk := fun i => !(i == 1) }

/-- A running machine, id 1. -/
def mRun1 : UIVirtualMachineItem :=
  { id := 1, name := "vm-1", machineState := KMachineState.Running
    accessible := true, editable := false, canSwitchTo := false
    sessionHeadless := false, configurationAccessLevel := ConfigurationAccessLevel.Full }

/-- A running machine, id 2. -/
def mRun2 : UIVirtualMachineItem :=
  { id := 2, name := "vm-2", machineState := KMachineState.Running
    accessible := true, editable := false, canSwitchTo := false
    sessionHeadless := false, configurationAccessLevel := ConfigurationAccessLevel.Full }

/-- A powered-off, editable machine, id 3. -/
def mPO1 : UIVirtualMachineItem :=
  { id := 3, name := "vm-3", machineState := KMachineState.PoweredOff
    accessible := true, editable := true, canSwitchTo := false
    sessionHeadless := false, configurationAccessLevel := ConfigurationAccessLevel.Full }

/-- A powered-off, editable machine, id 4. -/
def mPO2 : UIVirtualMachineItem :=
  { id := 4, name := "vm-4", machineState := KMachineState.PoweredOff
    accessible := true, editable := true, canSwitchTo := false
    sessionHeadless := false, configurationAccessLevel := ConfigurationAccessLevel.Full }

/-- A paused machine, id 5. -/
def mPaused1 : UIVirtualMachineItem :=
  { id := 5, name := "vm-5", machineState := KMachineState.Paused
    accessible := true, editable := false, canSwitchTo := false
    sessionHeadless := false, configurationAccessLevel := ConfigurationAccessLevel.Full }

/-- A machine in Saved state, editable, id 6. -/
def mSaved1 : UIVirtualMachineItem :=
  { id := 6, name := "vm-6", machineState := KMachineState.Saved
    accessible := true, editable := true, canSwitchTo := false
    sessionHeadless := false, configurationAccessLevel := ConfigurationAccessLevel.Full }

/-! ## Shared lemmas -/

/-- Per-item Pause enablement is exactly the started classification of the item. -/
theorem isActionEnabled_pause_single (env : ManagerEnv) (eng : Engine)
    (p : UIVirtualMachineItem) :
    isActionEnabled env eng ActionIndex.Group_T_Pause [p] = isItemStarted p := by
  simp [isActionEnabled, isAtLeastOneItemStarted]

/-- A paused item is started. -/
theorem isItemStarted_of_isItemPaused (p : UIVirtualMachineItem)
    (h : isItemPaused p = true) : isItemStarted p = true := by
  unfold isItemPaused at h
  unfold isItemStarted
  cases hs : p.machineState <;> rw [hs] at h <;> simp_all

/-- A running item is started. -/
theorem isItemStarted_of_isItemRunning (p : UIVirtualMachineItem)
    (h : isItemRunning p = true) : isItemStarted p = true := by
  unfold isItemRunning at h
  unfold isItemStarted
  cases hs : p.machineState <;> rw [hs] at h <;> simp_all

/-- Joining a single display name yields that name. -/
theorem joinedNames_singleton (p : UIVirtualMachineItem) :
    joinedNames [p] = p.name := by
  simp [joinedNames, String.intercalate, String.intercalate.go]

/-! ## Claim theorems -/

/-- C5: evaluating enablement on the empty selection returns false for every
selection-dependent (per-machine) action; only the global actions
(Preferences, ExportAppliance, ImportAppliance, AddMachine) are exempt. -/
theorem isActionEnabled_empty_selection_false (env : ManagerEnv) (eng : Engine)
    (a : ActionIndex)
    (h1 : a ≠ ActionIndex.Application_S_Preferences)
    (h2 : a ≠ ActionIndex.File_S_ExportAppliance)
    (h3 : a ≠ ActionIndex.File_S_ImportAppliance)
    (h4 : a ≠ ActionIndex.Welcome_S_Add) :
    isActionEnabled env eng a [] = false := by
  cases a <;> first | rfl | simp_all

/-- Witness for C5: the Reset action is disabled for the empty selection. -/
theorem isActionEnabled_empty_selection_false_witness :
    isActionEnabled envDefault engTrue ActionIndex.Machine_S_Reset [] = false :=
  isActionEnabled_empty_selection_false envDefault engTrue ActionIndex.Machine_S_Reset
    (by decide) (by decide) (by decide) (by decide)

/-- Counterexample to C4: a powered-off, editable machine in a single-item
selection while group saving is in progress — Start is disabled, so enablement
is not implied by the machine's state and editability alone. -/
theorem start_poweredOff_editable_counterexample :
    mPO1.machineState = KMachineState.PoweredOff ∧ mPO1.editable = true ∧
    isActionEnabled envSaving engTrue
      ActionIndex.Machine_M_StartOrShow_S_StartNormal [mPO1] = false := by
  decide

/-- C4 (amended): for a single-machine selection on a powered-off machine,
provided no group saving is in progress and the snapshots-pane gating condition
holds, Start enablement equals the machine's editability; and with
editable = false the Start action is disabled under every manager state. -/
theorem start_poweredOff_editable_enablement (env : ManagerEnv) (eng : Engine)
    (m : UIVirtualMachineItem)
    (hstate : m.machineState = KMachineState.PoweredOff)
    (hg : env.groupSavingInProgress = false)
    (ht : env.currentMachineTool ≠ UIToolType.Snapshots ∨ env.currentStateItemSelected = true) :
    isActionEnabled env eng ActionIndex.Machine_M_StartOrShow_S_StartNormal [m] = m.editable ∧
    (m.editable = false →
      ∀ (env2 : ManagerEnv) (eng2 : Engine),
        isActionEnabled env2 eng2 ActionIndex.Machine_M_StartOrShow_S_StartNormal [m] = false) := by
  constructor
  · simp only [isActionEnabled, isAtLeastOneItemCanBeStartedOrShown, List.any_cons,
      List.any_nil, isItemPoweredOff, isItemStarted, isItemEditable, isItemRunningHeadless,
      isItemRunning, hstate, hg]
    rcases ht with h | h
    · have : (env.currentMachineTool == UIToolType.Snapshots) = false := by
        simpa using h
      simp [this]
    · simp [h]
  · intro he env2 eng2
    simp [isActionEnabled, isAtLeastOneItemCanBeStartedOrShown, isItemPoweredOff,
      isItemStarted, isItemEditable, isItemRunningHeadless, isItemRunning, hstate, he]

/-- Witness for C4 (amended): concrete powered-off editable machine under the
quiescent manager state has Start enabled. -/
theorem start_poweredOff_editable_enablement_witness :
    isActionEnabled envDefault engTrue
      ActionIndex.Machine_M_StartOrShow_S_StartNormal [mPO1] = mPO1.editable :=
  (start_poweredOff_editable_enablement envDefault engTrue mPO1 rfl rfl
    (Or.inl (by decide))).1

/-- Counterexample to C6: all four conditions of the claim hold (singleton
selection, accessible item, configuration access level not Null, no settings
dialog open) yet the Settings action is disabled, because group saving is in
progress — a condition the claim omits. -/
theorem settings_enablement_counterexample :
    ([mPO1].length = 1 ∧ mPO1.accessible = true ∧
     mPO1.configurationAccessLevel ≠ ConfigurationAccessLevel.Null ∧
     envSaving.opened.machineSettings = false) ∧
    isActionEnabled envSaving engTrue ActionIndex.Machine_S_Settings [mPO1] = false := by
  decide

/-- C6 (amended): the Settings action is enabled exactly when the settings
dialog is not already open, no group saving is in progress, the selection is a
singleton, the item's configuration access level is not Null, and the
snapshots-pane gating condition holds; selections of any other size are always
disabled. The item's `accessible` field is not consulted. -/
theorem settings_enablement_characterization (env : ManagerEnv) (eng : Engine) :
    (∀ p : UIVirtualMachineItem,
       (isActionEnabled env eng ActionIndex.Machine_S_Settings [p] = true ↔
         (env.opened.machineSettings = false ∧ env.groupSavingInProgress = false ∧
          p.configurationAccessLevel ≠ ConfigurationAccessLevel.Null ∧
          (env.currentMachineTool ≠ UIToolType.Snapshots ∨
            env.currentStateItemSelected = true)))) ∧
    (∀ items : List UIVirtualMachineItem, items.length ≠ 1 →
       isActionEnabled env eng ActionIndex.Machine_S_Settings items = false) := by
  constructor
  · intro p
    simp [isActionEnabled]
    tauto
  · intro items h
    match items with
    | [] => rfl
    | [p] => exact absurd rfl h
    | p :: q :: rest => simp [isActionEnabled]

/-- Witness for C6 (amended): under the quiescent manager state a machine with
full configuration access has Settings enabled. -/
theorem settings_enablement_characterization_witness :
    isActionEnabled envDefault engTrue ActionIndex.Machine_S_Settings [mPO1] = true :=
  ((settings_enablement_characterization envDefault engTrue).1 mPO1).mpr
    ⟨rfl, rfl, by decide, Or.inl (by decide)⟩

/-- C3: the Shutdown action is enabled only if at least one item is started and
at least one item's guest has acknowledged ACPI mode; for a single Running
machine whose guest has not entered ACPI mode the action is disabled although
the machine is started; and the ACPI condition is probed through a freshly
opened (and then released) session, reading the live console rather than any
cached machine record. -/
theorem shutdown_requires_live_acpi_probe (env : ManagerEnv) (eng : Engine) :
    (∀ items : List UIVirtualMachineItem,
       isActionEnabled env eng ActionIndex.Machine_M_Close_S_Shutdown items = true →
       isAtLeastOneItemStarted items = true ∧
       isAtLeastOneItemAbleToShutdown eng items = true) ∧
    (∀ m : UIVirtualMachineItem, m.machineState = KMachineState.Running →
       eng.guestEnteredACPIMode m.id = false →
       isItemStarted m = true ∧
       isActionEnabled env eng ActionIndex.Machine_M_Close_S_Shutdown [m] = false) ∧
    (∀ m : UIVirtualMachineItem, isItemRunning m = true →
       eng.openExistingSessionOk m.id = true → eng.consoleOk m.id = true →
       (isAtLeastOneItemAbleToShutdownAux eng [m]).2 =
         [Event.openExistingSession m.id, Event.unlockMachine m.id] ∧
       (isAtLeastOneItemAbleToShutdownAux eng [m]).1 = eng.guestEnteredACPIMode m.id) := by
  refine ⟨?_, ?_, ?_⟩
  · intro items h
    match items with
    | [] => exact absurd h (by simp [isActionEnabled])
    | p :: rest =>
      simpa [isActionEnabled] using h
  · intro m hstate hacpi
    have hrun : isItemRunning m = true := by simp [isItemRunning, hstate]
    have hst : isItemStarted m = true := by simp [isItemStarted, hstate]
    refine ⟨hst, ?_⟩
    have hable : isAtLeastOneItemAbleToShutdown eng [m] = false := by
      unfold isAtLeastOneItemAbleToShutdown isAtLeastOneItemAbleToShutdownAux
      cases h1 : eng.openExistingSessionOk m.id <;>
        cases h2 : eng.consoleOk m.id <;>
          simp [hrun, hacpi, isAtLeastOneItemAbleToShutdownAux]
    simp [isActionEnabled, hable]
  · intro m hrun h1 h2
    cases h3 : eng.guestEnteredACPIMode m.id <;>
      simp [isAtLeastOneItemAbleToShutdownAux, hrun, h1, h2, h3]

/-- Witness for C3: a concrete Running machine on an engine whose guest never
enters ACPI mode — Shutdown disabled, probe opens and releases one session. -/
theorem shutdown_requires_live_acpi_probe_witness :
    (isItemStarted mRun1 = true ∧
     isActionEnabled envDefault engNoAcpi
       ActionIndex.Machine_M_Close_S_Shutdown [mRun1] = false) ∧
    ((isAtLeastOneItemAbleToShutdownAux engNoAcpi [mRun1]).2 =
       [Event.openExistingSession mRun1.id, Event.unlockMachine mRun1.id] ∧
     (isAtLeastOneItemAbleToShutdownAux engNoAcpi [mRun1]).1 =
       engNoAcpi.guestEnteredACPIMode mRun1.id) :=
  ⟨(shutdown_requires_live_acpi_probe envDefault engNoAcpi).2.1 mRun1 rfl rfl,
   (shutdown_requires_live_acpi_probe envDefault engNoAcpi).2.2 mRun1 rfl rfl rfl⟩

/-- C1: on a PowerOff batch over `[m1, m2]` with both items eligible, where
m1's remote power-down fails (console error) and m2's succeeds, the batch does
not short-circuit: the trace reports a per-item failure for m1 and then still
acquires m2's session, performs the power-down on it, and releases it, with no
failure reported for m2. -/
theorem powerOff_batch_isolation (env : ManagerEnv) (eng : Engine)
    (m1 m2 : UIVirtualMachineItem)
    (h1 : isItemStarted m1 = true) (h2 : isItemStarted m2 = true)
    (hs1 : eng.openExistingSessionOk m1.id = true)
    (hs2 : eng.openExistingSessionOk m2.id = true)
    (hf : eng.powerDownOk m1.id = false)
    (hok : eng.powerDownOk m2.id = true)
    (hp : eng.powerOffProgressOk m2.id = true)
    (hr : eng.powerOffResultCode m2.id = 0)
    (hc : eng.confirmPowerOffMachine = true) :
    sltPerformPowerOffMachine env eng [m1, m2] =
      [Event.confirm ConfirmKind.powerOffMachine (joinedNames [m1, m2]),
       Event.openExistingSession m1.id, Event.remoteCall RemoteOp.powerDown m1.id,
       Event.reportError RemoteOp.powerDown m1.id, Event.unlockMachine m1.id,
       Event.openExistingSession m2.id, Event.remoteCall RemoteOp.powerDown m2.id,
       Event.unlockMachine m2.id] := by
  simp [sltPerformPowerOffMachine, powerOffLoop, isActionEnabled, isAtLeastOneItemStarted,
    h1, h2, hs1, hs2, hf, hok, hp, hr, hc]

/-- Witness for C1: concrete two-machine batch on the engine failing machine 1's
power-down. -/
theorem powerOff_batch_isolation_witness :
    sltPerformPowerOffMachine envDefault engFailPowerDown1 [mRun1, mRun2] =
      [Event.confirm ConfirmKind.powerOffMachine (joinedNames [mRun1, mRun2]),
       Event.openExistingSession mRun1.id, Event.remoteCall RemoteOp.powerDown mRun1.id,
       Event.reportError RemoteOp.powerDown mRun1.id, Event.unlockMachine mRun1.id,
       Event.openExistingSession mRun2.id, Event.remoteCall RemoteOp.powerDown mRun2.id,
       Event.unlockMachine mRun2.id] :=
  powerOff_batch_isolation envDefault engFailPowerDown1 mRun1 mRun2
    rfl rfl rfl rfl rfl rfl rfl rfl rfl

/-- C2: a Start batch over `[m1, m2]` with both items startable queries the
confirmation collaborator exactly once, as the very first collaborator call
(before any launch; the slot opens no session at all); when the confirmation is
declined the trace is the confirmation request alone — no session acquire and
no launch happens for any item. -/
theorem start_confirmation_gating (env : ManagerEnv) (eng : Engine)
    (m1 m2 : UIVirtualMachineItem)
    (hg : env.groupSavingInProgress = false)
    (h1 : m1.machineState = KMachineState.PoweredOff) (h1e : m1.editable = true)
    (h2 : m2.machineState = KMachineState.PoweredOff) (h2e : m2.editable = true) :
    performStartOrShowVirtualMachines env eng [m1, m2] =
      Event.confirm ConfirmKind.startMultipleMachines (joinedNames [m1, m2]) ::
      (if eng.confirmStartMultipleMachines then
        [Event.launchMachine m1.id, Event.launchMachine m2.id]
      else []) ∧
    (performStartOrShowVirtualMachines env eng [m1, m2]).countP Event.isConfirm = 1 ∧
    (eng.confirmStartMultipleMachines = false →
      performStartOrShowVirtualMachines env eng [m1, m2] =
        [Event.confirm ConfirmKind.startMultipleMachines (joinedNames [m1, m2])]) := by
  have key : performStartOrShowVirtualMachines env eng [m1, m2] =
      Event.confirm ConfirmKind.startMultipleMachines (joinedNames [m1, m2]) ::
      (if eng.confirmStartMultipleMachines then
        [Event.launchMachine m1.id, Event.launchMachine m2.id]
      else []) := by
    simp [performStartOrShowVirtualMachines, isAtLeastOneItemCanBeStarted,
      isAtLeastOneItemCanBeShown, isItemPoweredOff, isItemStarted, isItemEditable,
      isItemRunningHeadless, isItemRunning, hg, h1, h1e, h2, h2e]
    cases eng.confirmStartMultipleMachines <;> simp [h1, h1e, h2, h2e]
  refine ⟨key, ?_, ?_⟩
  · rw [key]
    cases eng.confirmStartMultipleMachines <;>
      simp [List.countP_cons, Event.isConfirm]
  · intro hd
    rw [key, hd]
    rfl

/-- Witness for C2: two concrete powered-off machines on the all-declining
engine — the trace is the single confirmation request. -/
theorem start_confirmation_gating_witness :
    performStartOrShowVirtualMachines envDefault engDecline [mPO1, mPO2] =
      [Event.confirm ConfirmKind.startMultipleMachines (joinedNames [mPO1, mPO2])] :=
  (start_confirmation_gating envDefault engDecline mPO1 mPO2
    rfl rfl rfl rfl rfl).2.2 rfl

/-- C7: the Reset, Shutdown, PowerOff and Discard batches request confirmation
even when the filtered eligible set is a single item, and a declined
confirmation leaves the trace at the confirmation request alone — no session is
opened by the executor; only the Start batch's confirmation is size-gated: with
a single startable item no confirmation is requested. -/
theorem single_item_confirmation_not_size_gated (env : ManagerEnv) (eng : Engine)
    (m : UIVirtualMachineItem) :
    (isItemRunning m = true →
       (sltPerformResetMachine env eng [m]).head? =
         some (Event.confirm ConfirmKind.resetMachine m.name) ∧
       (eng.confirmResetMachine = false →
         sltPerformResetMachine env eng [m] =
           [Event.confirm ConfirmKind.resetMachine m.name])) ∧
    (isActionEnabled env eng ActionIndex.Machine_M_Close_S_Shutdown [m] = true →
       (sltPerformShutdownMachine env eng [m]).head? =
         some (Event.confirm ConfirmKind.acpiShutdown m.name) ∧
       (eng.confirmACPIShutdownMachine = false →
         sltPerformShutdownMachine env eng [m] =
           [Event.confirm ConfirmKind.acpiShutdown m.name])) ∧
    (isItemStarted m = true →
       (sltPerformPowerOffMachine env eng [m]).head? =
         some (Event.confirm ConfirmKind.powerOffMachine m.name) ∧
       (eng.confirmPowerOffMachine = false →
         sltPerformPowerOffMachine env eng [m] =
           [Event.confirm ConfirmKind.powerOffMachine m.name])) ∧
    (isActionEnabled env eng ActionIndex.Group_S_Discard [m] = true →
       (sltPerformDiscardMachineState env eng [m]).head? =
         some (Event.confirm ConfirmKind.discardSavedState m.name) ∧
       (eng.confirmDiscardSavedState = false →
         sltPerformDiscardMachineState env eng [m] =
           [Event.confirm ConfirmKind.discardSavedState m.name])) ∧
    (isItemPoweredOff m = true → m.editable = true →
       env.groupSavingInProgress = false →
       (performStartOrShowVirtualMachines env eng [m]).countP Event.isConfirm = 0) := by
  refine ⟨?_, ?_, ?_, ?_, ?_⟩
  · intro h
    have hfil : isActionEnabled env eng ActionIndex.Group_S_Reset [m] = true := by
      simp [isActionEnabled, isAtLeastOneItemRunning, h]
    constructor
    · cases hc : eng.confirmResetMachine <;>
        simp [sltPerformResetMachine, hfil, hc, joinedNames_singleton]
    · intro hc
      simp [sltPerformResetMachine, hfil, hc, joinedNames_singleton]
  · intro h
    constructor
    · cases hc : eng.confirmACPIShutdownMachine <;>
        simp [sltPerformShutdownMachine, h, hc, joinedNames_singleton]
    · intro hc
      simp [sltPerformShutdownMachine, h, hc, joinedNames_singleton]
  · intro h
    have hfil : isActionEnabled env eng ActionIndex.Machine_M_Close_S_PowerOff [m] = true := by
      simp [isActionEnabled, isAtLeastOneItemStarted, h]
    constructor
    · cases hc : eng.confirmPowerOffMachine <;>
        simp [sltPerformPowerOffMachine, hfil, hc, joinedNames_singleton]
    · intro hc
      simp [sltPerformPowerOffMachine, hfil, hc, joinedNames_singleton]
  · intro h
    constructor
    · cases hc : eng.confirmDiscardSavedState <;>
        simp [sltPerformDiscardMachineState, h, hc, joinedNames_singleton]
    · intro hc
      simp [sltPerformDiscardMachineState, h, hc, joinedNames_singleton]
  · intro hpo he hg
    have hcb : isAtLeastOneItemCanBeStarted [m] = true := by
      simp [isAtLeastOneItemCanBeStarted, isItemEditable, hpo, he]
    simp only [performStartOrShowVirtualMachines, hg, Bool.false_eq_true, if_false]
    simp [hcb, Event.isConfirm, List.countP_cons]

/-- Witness for C7: on the all-declining engine, resetting a single running
machine produces only the confirmation request, and starting a single
powered-off machine requests no confirmation at all. -/
theorem single_item_confirmation_not_size_gated_witness :
    sltPerformResetMachine envDefault engDecline [mRun1] =
      [Event.confirm ConfirmKind.resetMachine mRun1.name] ∧
    (performStartOrShowVirtualMachines envDefault engDecline [mPO1]).countP
      Event.isConfirm = 0 :=
  ⟨((single_item_confirmation_not_size_gated envDefault engDecline mRun1).1 rfl).2 rfl,
   (single_item_confirmation_not_size_gated envDefault engDecline mPO1).2.2.2.2
     rfl rfl rfl⟩

/-- C8: each modal sub-flow slot (ImportAppliance, ExportAppliance,
Preferences, AddMachine, Settings) sets its "opened" flag before the sub-flow
runs and clears it on return, and while the flag is set the enablement
evaluator returns false for the corresponding action — so the same sub-flow
cannot be re-entered from the same trigger source while it is open. -/
theorem modal_subflow_reentrancy_guard (env : ManagerEnv) (eng : Engine)
    (items : List UIVirtualMachineItem) :
    ((sltOpenImportApplianceWizard env).1.opened.importAppliance = true ∧
     isActionEnabled (sltOpenImportApplianceWizard env).1 eng
       ActionIndex.File_S_ImportAppliance items = false ∧
     (sltOpenImportApplianceWizard env).2.opened.importAppliance = false) ∧
    ((sltOpenExportApplianceWizard env).1.opened.exportAppliance = true ∧
     (sltOpenExportApplianceWizard env).1.opened.exportToOCI = true ∧
     isActionEnabled (sltOpenExportApplianceWizard env).1 eng
       ActionIndex.File_S_ExportAppliance items = false ∧
     isActionEnabled (sltOpenExportApplianceWizard env).1 eng
       ActionIndex.Machine_S_ExportToOCI items = false ∧
     (sltOpenExportApplianceWizard env).2.opened.exportAppliance = false ∧
     (sltOpenExportApplianceWizard env).2.opened.exportToOCI = false) ∧
    ((sltOpenPreferencesDialog env).1.opened.preferences = true ∧
     isActionEnabled (sltOpenPreferencesDialog env).1 eng
       ActionIndex.Application_S_Preferences items = false ∧
     (sltOpenPreferencesDialog env).2.opened.preferences = false) ∧
    ((sltOpenAddMachineDialog env).1.opened.welcomeAdd = true ∧
     isActionEnabled (sltOpenAddMachineDialog env).1 eng
       ActionIndex.Welcome_S_Add items = false ∧
     (sltOpenAddMachineDialog env).2.opened.welcomeAdd = false) ∧
    ((sltOpenMachineSettingsDialog env).1.opened.machineSettings = true ∧
     isActionEnabled (sltOpenMachineSettingsDialog env).1 eng
       ActionIndex.Machine_S_Settings items = false ∧
     (sltOpenMachineSettingsDialog env).2.opened.machineSettings = false) := by
  refine ⟨⟨rfl, ?_, rfl⟩, ⟨rfl, rfl, ?_, ?_, rfl, rfl⟩, ⟨rfl, ?_, rfl⟩,
    ⟨rfl, ?_, rfl⟩, ⟨rfl, ?_, rfl⟩⟩
  · simp [sltOpenImportApplianceWizard, isActionEnabled]
  · simp [sltOpenExportApplianceWizard, isActionEnabled]
  · cases items <;> simp [sltOpenExportApplianceWizard, isActionEnabled]
  · simp [sltOpenPreferencesDialog, isActionEnabled]
  · simp [sltOpenAddMachineDialog, isActionEnabled]
  · cases items <;> simp [sltOpenMachineSettingsDialog, isActionEnabled]

/-- One-step congruence for the pause/resume loop: processing of the head item
is independent of the tail, so equal tail traces give equal traces. -/
theorem pauseOrResumeLoop_cons_congr (env : ManagerEnv) (eng : Engine) (fPause : Bool)
    (q : UIVirtualMachineItem) (l1 l2 : List UIVirtualMachineItem)
    (h : pauseOrResumeLoop env eng fPause l1 = pauseOrResumeLoop env eng fPause l2) :
    pauseOrResumeLoop env eng fPause (q :: l1) =
      pauseOrResumeLoop env eng fPause (q :: l2) := by
  simp only [pauseOrResumeLoop]
  rw [h]

/-- A paused head item contributes nothing to a pause batch. -/
theorem pauseOrResumeLoop_cons_skip_paused (env : ManagerEnv) (eng : Engine)
    (p : UIVirtualMachineItem) (l : List UIVirtualMachineItem)
    (h : isItemPaused p = true) :
    pauseOrResumeLoop env eng true (p :: l) = pauseOrResumeLoop env eng true l := by
  have hst := isItemStarted_of_isItemPaused p h
  have hen : isActionEnabled env eng ActionIndex.Group_T_Pause [p] = true := by
    rw [isActionEnabled_pause_single]
    exact hst
  have hskip : (p.machineState == KMachineState.Paused ||
      p.machineState == KMachineState.TeleportingPausedVM) = true := by
    unfold isItemPaused at h
    cases hs : p.machineState <;> rw [hs] at h <;> simp_all
  simp only [pauseOrResumeLoop, hen, hskip]
  simp

/-- A running head item contributes nothing to a resume batch. -/
theorem pauseOrResumeLoop_cons_skip_running (env : ManagerEnv) (eng : Engine)
    (p : UIVirtualMachineItem) (l : List UIVirtualMachineItem)
    (h : p.machineState = KMachineState.Running ∨
         p.machineState = KMachineState.Teleporting ∨
         p.machineState = KMachineState.LiveSnapshotting) :
    pauseOrResumeLoop env eng false (p :: l) = pauseOrResumeLoop env eng false l := by
  have hrun : isItemRunning p = true := by
    rcases h with h | h | h <;> simp [isItemRunning, h]
  have hst := isItemStarted_of_isItemRunning p hrun
  have hen : isActionEnabled env eng ActionIndex.Group_T_Pause [p] = true := by
    rw [isActionEnabled_pause_single]
    exact hst
  have hskip : (p.machineState == KMachineState.Running ||
      p.machineState == KMachineState.Teleporting ||
      p.machineState == KMachineState.LiveSnapshotting) = true := by
    rcases h with h | h | h <;> simp [h]
  simp only [pauseOrResumeLoop, hen, hskip]
  simp

/-- C10: a Pause batch skips every selected item that is already paused
(Paused or TeleportingPausedVM) and a Resume batch skips every item already in
a running state (Running, Teleporting, LiveSnapshotting): the batch trace with
the settled item present equals the trace with it removed — no session is
opened for it and no remote call touches it. -/
theorem pause_resume_skips_settled_items (env : ManagerEnv) (eng : Engine)
    (pre post : List UIVirtualMachineItem) (p : UIVirtualMachineItem) :
    (isItemPaused p = true →
       sltPerformPauseOrResumeMachine env eng true (pre ++ p :: post) =
         sltPerformPauseOrResumeMachine env eng true (pre ++ post)) ∧
    ((p.machineState = KMachineState.Running ∨
      p.machineState = KMachineState.Teleporting ∨
      p.machineState = KMachineState.LiveSnapshotting) →
       sltPerformPauseOrResumeMachine env eng false (pre ++ p :: post) =
         sltPerformPauseOrResumeMachine env eng false (pre ++ post)) := by
  constructor
  · intro h
    unfold sltPerformPauseOrResumeMachine
    induction pre with
    | nil => simpa using pauseOrResumeLoop_cons_skip_paused env eng p post h
    | cons q rest ih => simpa using pauseOrResumeLoop_cons_congr env eng true q _ _ ih
  · intro h
    unfold sltPerformPauseOrResumeMachine
    induction pre with
    | nil => simpa using pauseOrResumeLoop_cons_skip_running env eng p post h
    | cons q rest ih => simpa using pauseOrResumeLoop_cons_congr env eng false q _ _ ih

/-- Witness for C10: a pause batch over a running and an already-paused machine
equals the batch without the paused one, and symmetrically for resume. -/
theorem pause_resume_skips_settled_items_witness :
    sltPerformPauseOrResumeMachine envDefault engTrue true ([mRun1] ++ mPaused1 :: []) =
      sltPerformPauseOrResumeMachine envDefault engTrue true ([mRun1] ++ []) ∧
    sltPerformPauseOrResumeMachine envDefault engTrue false ([mPaused1] ++ mRun1 :: []) =
      sltPerformPauseOrResumeMachine envDefault engTrue false ([mPaused1] ++ []) :=
  ⟨(pause_resume_skips_settled_items envDefault engTrue [mRun1] [] mPaused1).1 rfl,
   (pause_resume_skips_settled_items envDefault engTrue [mPaused1] [] mRun1).2 (Or.inl rfl)⟩

/-- C9: the Pause/Resume toggle's checked state is decided solely by the first
started item in selection order: it is checked exactly when such an item exists
and is paused, and items after the first started item have no influence. -/
theorem pause_toggle_first_started_decides :
    (∀ items : List UIVirtualMachineItem,
       (pauseToggleChecked items = true ↔
         ∃ p, firstStartedItem items = some p ∧ isItemPaused p = true)) ∧
    (∀ (pre post post2 : List UIVirtualMachineItem) (p : UIVirtualMachineItem),
       (∀ q ∈ pre, isItemStarted q = false) → isItemStarted p = true →
       pauseToggleChecked (pre ++ p :: post) = isItemPaused p ∧
       pauseToggleChecked (pre ++ p :: post2) = pauseToggleChecked (pre ++ p :: post)) := by
  constructor
  · intro items
    unfold pauseToggleChecked
    cases h : firstStartedItem items <;> simp [h]
  · intro pre post post2 p hpre hp
    have hfind : ∀ post3 : List UIVirtualMachineItem,
        firstStartedItem (pre ++ p :: post3) = some p := by
      intro post3
      unfold firstStartedItem
      rw [List.find?_append]
      have hnone : pre.find? isItemStarted = none := by
        rw [List.find?_eq_none]
        intro x hx
        simp [hpre x hx]
      simp [hnone, List.find?_cons, hp]
    constructor
    · unfold pauseToggleChecked
      rw [hfind post]
    · unfold pauseToggleChecked
      rw [hfind post2, hfind post]

/-- Witness for C9: with a paused machine first in selection order, the toggle
is checked and a trailing item does not change it. -/
theorem pause_toggle_first_started_decides_witness :
    pauseToggleChecked ([] ++ mPaused1 :: [mRun1]) = isItemPaused mPaused1 ∧
    pauseToggleChecked ([] ++ mPaused1 :: []) =
      pauseToggleChecked ([] ++ mPaused1 :: [mRun1]) :=
  pause_toggle_first_started_decides.2 [] [mRun1] [] mPaused1 (by simp) rfl
